import Mathlib

/-!
Verification of the signal-scoring and backtesting pipeline of the stock
analysis backend.

The development shallowly embeds the Python sources in Lean 4:

* `services/stock/stock_predictor.py` — technical-indicator engine
  (`_calculate_technical_indicators`), feature preparation
  (`_prepare_features`), the `train` methods of the linear / random-forest /
  LSTM predictors, and `BasePredictor._calculate_confidence`;
* `routers/stock/stock_backtest_router.py` — `_run_backtest` and the
  multi-model comparison loop of `compare_model_backtest`;
* `services/stock/stock_signal_analyzer.py` — the category analyzers, the
  composite score, `_determine_signal_type`, stop-loss / take-profit /
  risk-reward levels and the empty-signal sentinel.

Conventions of the embedding:

* Machine floats become `ℚ`.  A pandas missing value (NaN) is `none` in an
  `Option ℚ` column; a cell that pandas fills with an IEEE infinity (for
  instance a division of a nonzero value by zero) is still a *present* cell,
  so it is `some` here, with the Lean convention `x / 0 = 0` standing in for
  the infinite value.  No theorem below depends on the value of such a cell,
  only on which cells are present, except where closing prices themselves are
  compared, and those never involve a division.
* A square root (`Series.std`, `np.std`) is irrational in general; the
  embedding uses the integer-square-root approximation `ratSqrt`.  Only the
  *presence* of these cells (never the value) is used by any theorem.
* External libraries (yfinance fetches, sklearn's scaler/regressors, keras)
  are capabilities of an explicit environment: a fetch is a function from a
  period label to an OHLCV table, and the fitted model's prediction routine
  is a function of the data that was passed to `fit`.  What the repository's
  own code does with those capabilities is embedded faithfully.
-/

/-- Clamp a rational to the interval [0, 100]; the `max(0, min(100, score))`
idiom that ends every category analyzer. -/
def clamp0100 (q : ℚ) : ℚ := max 0 (min 100 q)

theorem clamp0100_mem (q : ℚ) : clamp0100 q ∈ Set.Icc (0 : ℚ) 100 := by
  constructor
  · exact le_max_left 0 _
  · have h1 : min 100 q ≤ (100 : ℚ) := min_le_left _ _
    have h2 : (0 : ℚ) ≤ 100 := by norm_num
    exact max_le h2 h1

/-- Round-half-to-even on a rational, the tie-breaking rule of Python's
built-in `round`. -/
def roundHalfEven (q : ℚ) : ℤ :=
  if q - ⌊q⌋ = 1 / 2 then (if ⌊q⌋ % 2 = 0 then ⌊q⌋ else ⌊q⌋ + 1) else round q

/-- Python's `round(x, 2)`: round to two decimal places, ties to even. -/
def pyRound2 (q : ℚ) : ℚ := (roundHalfEven (q * 100) : ℚ) / 100

theorem pyRound2_two : pyRound2 2 = 2 := by
  norm_num [pyRound2, roundHalfEven]

/-- Floor approximation of the square root of a nonneg rational (used only to
give a computable value to standard-deviation cells; see the file header). -/
def ratSqrt (q : ℚ) : ℚ :=
  if q ≤ 0 then 0 else (Nat.sqrt (q.num.toNat * q.den) : ℚ) / (q.den : ℚ)

/-! ## OHLCV data and rolling-window primitives -/

/-- One daily bar of the provider's OHLCV table. -/
structure OHLCV where
  Open : ℚ
  High : ℚ
  Low : ℚ
  Close : ℚ
  Volume : ℚ
deriving DecidableEq, Repr

instance : Inhabited OHLCV := ⟨⟨0, 0, 0, 0, 0⟩⟩

/-- Read a column at an index, zero outside the table (all uses below are in
range). -/
def getQ (xs : List ℚ) (i : Nat) : ℚ := xs.getD i 0

/-- The trailing window of width `w` ending at index `i` (callers guard
`w ≤ i + 1`). -/
def winAt (xs : List ℚ) (w i : Nat) : List ℚ := (xs.drop (i + 1 - w)).take w

/-- Minimum of a list, `0` on the empty list (unreachable at call sites). -/
def listMinD : List ℚ → ℚ
  | [] => 0
  | x :: xs => xs.foldl min x

/-- Maximum of a list, `0` on the empty list (unreachable at call sites). -/
def listMaxD : List ℚ → ℚ
  | [] => 0
  | x :: xs => xs.foldl max x

/-- `Series.rolling(window=w).mean()` at index `i` over a gap-free column:
missing for the first `w - 1` indices, then the window average. -/
def rollMean (w : Nat) (xs : List ℚ) (i : Nat) : Option ℚ :=
  if w ≤ i + 1 then some ((winAt xs w i).sum / (w : ℚ)) else none

/-- `Series.rolling(window=w).min()` at index `i`. -/
def rollMin (w : Nat) (xs : List ℚ) (i : Nat) : Option ℚ :=
  if w ≤ i + 1 then some (listMinD (winAt xs w i)) else none

/-- `Series.rolling(window=w).max()` at index `i`. -/
def rollMax (w : Nat) (xs : List ℚ) (i : Nat) : Option ℚ :=
  if w ≤ i + 1 then some (listMaxD (winAt xs w i)) else none

/-- `Series.rolling(window=w).std()` at index `i` (sample deviation,
`ddof = 1`); the square root goes through `ratSqrt`, see the file header. -/
def rollStd (w : Nat) (xs : List ℚ) (i : Nat) : Option ℚ :=
  if w ≤ i + 1 then
    some (ratSqrt
      ((((winAt xs w i).map (fun x => (x - (winAt xs w i).sum / (w : ℚ)) ^ 2)).sum)
        / ((w : ℚ) - 1)))
  else none

/-- The rolling mean absolute deviation used for the CCI:
`rolling(20).apply(lambda x: np.abs(x - x.mean()).mean())`. -/
def rollMAD (w : Nat) (xs : List ℚ) (i : Nat) : Option ℚ :=
  if w ≤ i + 1 then
    some ((((winAt xs w i).map (fun x => |x - (winAt xs w i).sum / (w : ℚ)|)).sum)
      / (w : ℚ))
  else none

/-- Rolling mean over a column that itself has missing cells: the cell is
present only when the whole window is present (pandas' default
`min_periods = window`). -/
def rollMeanO (w : Nat) (f : Nat → Option ℚ) (i : Nat) : Option ℚ :=
  if w ≤ i + 1 then
    (let vals := (List.range w).map (fun k => f (i + 1 - w + k));
     if vals.all Option.isSome then some (((vals.filterMap id).sum) / (w : ℚ))
     else none)
  else none

/-- `Series.ewm(..., adjust=False).mean()` with smoothing factor `α`: missing
until the first present cell, then the standard recursion
`y = (1 - α) * y_prev + α * x`.  An interior missing cell carries the previous
statistic forward; no column below has interior gaps, only leading ones. -/
def ewmO (α : ℚ) (f : Nat → Option ℚ) : Nat → Option ℚ
  | 0 => f 0
  | i + 1 =>
    match ewmO α f i, f (i + 1) with
    | none, v => v
    | some prev, some x => some ((1 - α) * prev + α * x)
    | some prev, none => some prev

/-- `x_i / x_(i-k) - 1`, pandas `pct_change(periods=k)`: missing for the first
`k` indices. -/
def pctChangeCol (xs : List ℚ) (k i : Nat) : Option ℚ :=
  if 0 < k ∧ k ≤ i then some ((getQ xs i - getQ xs (i - k)) / getQ xs (i - k))
  else none

/-- `np.sign`. -/
def qSign (x : ℚ) : ℚ := if 0 < x then 1 else if x < 0 then -1 else 0

/-! ## Technical-indicator columns

Each definition below is one column assignment of
`BasePredictor._calculate_technical_indicators` evaluated at row `i`;
`cs`, `hs`, `ls`, `vs` are the Close / High / Low / Volume columns. -/

/-- RSI(14): `delta = Close.diff()`; gains and losses via
`delta.where(delta > 0, 0)` (which replaces the leading missing diff by `0`,
so both series are gap-free); 14-day rolling means; `100 - 100/(1 + RS)`. -/
def rsiCol (cs : List ℚ) (i : Nat) : Option ℚ :=
  let gain := rollMean 14 ((List.range cs.length).map
    (fun j => if 1 ≤ j ∧ 0 < getQ cs j - getQ cs (j - 1)
      then getQ cs j - getQ cs (j - 1) else 0)) i
  let loss := rollMean 14 ((List.range cs.length).map
    (fun j => if 1 ≤ j ∧ getQ cs j - getQ cs (j - 1) < 0
      then -(getQ cs j - getQ cs (j - 1)) else 0)) i
  match gain, loss with
  | some g, some l => some (100 - 100 / (1 + g / l))
  | _, _ => none

/-- `Close.ewm(span=n, adjust=False).mean()`; the factor is `2 / (n + 1)`. -/
def emaCol (span : Nat) (cs : List ℚ) (i : Nat) : Option ℚ :=
  ewmO (2 / ((span : ℚ) + 1)) (fun j => some (getQ cs j)) i

/-- MACD = EMA(12) - EMA(26). -/
def macdCol (cs : List ℚ) (i : Nat) : Option ℚ :=
  match emaCol 12 cs i, emaCol 26 cs i with
  | some a, some b => some (a - b)
  | _, _ => none

/-- MACD signal line = EMA(span 9) of the MACD column. -/
def macdSignalCol (cs : List ℚ) (i : Nat) : Option ℚ :=
  ewmO (2 / 10) (macdCol cs) i

/-- MACD histogram = MACD - signal. -/
def macdHistCol (cs : List ℚ) (i : Nat) : Option ℚ :=
  match macdCol cs i, macdSignalCol cs i with
  | some m, some s => some (m - s)
  | _, _ => none

/-- KDJ raw stochastic value
`(Close - min(Low,9)) / (max(High,9) - min(Low,9) + 1e-10) * 100`. -/
def rsvCol (cs hs ls : List ℚ) (i : Nat) : Option ℚ :=
  match rollMin 9 ls i, rollMax 9 hs i with
  | some lo, some hi => some ((getQ cs i - lo) / (hi - lo + 1e-10) * 100)
  | _, _ => none

/-- KDJ K line: `rsv.ewm(com=2, adjust=False).mean()`; `com = 2` gives
factor `1/3`. -/
def kdjKCol (cs hs ls : List ℚ) (i : Nat) : Option ℚ :=
  ewmO (1 / 3) (rsvCol cs hs ls) i

/-- KDJ D line: EWM (com = 2) of the K line. -/
def kdjDCol (cs hs ls : List ℚ) (i : Nat) : Option ℚ :=
  ewmO (1 / 3) (kdjKCol cs hs ls) i

/-- KDJ J line: `3K - 2D`. -/
def kdjJCol (cs hs ls : List ℚ) (i : Nat) : Option ℚ :=
  match kdjKCol cs hs ls i, kdjDCol cs hs ls i with
  | some k, some d => some (3 * k - 2 * d)
  | _, _ => none

/-- OBV: `(np.sign(Close.diff()) * Volume).fillna(0).cumsum()`; the leading
missing diff becomes `0`, so the column is gap-free. -/
def obvCol (cs vs : List ℚ) (i : Nat) : Option ℚ :=
  some (((List.range (i + 1)).map
    (fun j => if j = 0 then 0 else qSign (getQ cs j - getQ cs (j - 1)) * getQ vs j)).sum)

/-- The true range: `max(High-Low, |High-prevClose|, |Low-prevClose|)`; on the
first row the two previous-close terms are missing and the row-wise `max`
skips them, leaving `High - Low`. -/
def trueRangeL (cs hs ls : List ℚ) : List ℚ :=
  (List.range cs.length).map (fun i =>
    if i = 0 then getQ hs i - getQ ls i
    else max (getQ hs i - getQ ls i)
      (max |getQ hs i - getQ cs (i - 1)| |getQ ls i - getQ cs (i - 1)|))

/-- ATR(14): 14-day rolling mean of the true range. -/
def atrCol (cs hs ls : List ℚ) (i : Nat) : Option ℚ :=
  rollMean 14 (trueRangeL cs hs ls) i

/-- The typical price `(High + Low + Close) / 3`. -/
def tpL (cs hs ls : List ℚ) : List ℚ :=
  (List.range cs.length).map (fun i => (getQ hs i + getQ ls i + getQ cs i) / 3)

/-- CCI(20): `(tp - SMA20(tp)) / (0.015 * MAD20(tp) + 1e-10)`. -/
def cciCol (cs hs ls : List ℚ) (i : Nat) : Option ℚ :=
  match rollMean 20 (tpL cs hs ls) i, rollMAD 20 (tpL cs hs ls) i with
  | some sma, some mad => some ((getQ (tpL cs hs ls) i - sma) / (0.015 * mad + 1e-10))
  | _, _ => none

/-- Williams %R(9): `-100 * (max(High,9) - Close) / (max(High,9) - min(Low,9) + 1e-10)`. -/
def williamsRCol (cs hs ls : List ℚ) (i : Nat) : Option ℚ :=
  match rollMax 9 hs i, rollMin 9 ls i with
  | some hi, some lo => some (-100 * (hi - getQ cs i) / (hi - lo + 1e-10))
  | _, _ => none

/-- `plus_dm = High.diff()` with negative entries set to `0`; the boolean-mask
assignment leaves the leading missing diff missing. -/
def plusDmCol (hs : List ℚ) (i : Nat) : Option ℚ :=
  if 1 ≤ i then
    some (if getQ hs i - getQ hs (i - 1) < 0 then 0 else getQ hs i - getQ hs (i - 1))
  else none

/-- `minus_dm = -Low.diff()` with negative entries set to `0`. -/
def minusDmCol (ls : List ℚ) (i : Nat) : Option ℚ :=
  if 1 ≤ i then
    some (if -(getQ ls i - getQ ls (i - 1)) < 0 then 0 else -(getQ ls i - getQ ls (i - 1)))
  else none

/-- `DMI+ = 100 * (plus_dm.rolling(14).mean() / (ATR + 1e-10))`. -/
def dmiPlusCol (cs hs ls : List ℚ) (i : Nat) : Option ℚ :=
  match rollMeanO 14 (plusDmCol hs) i, atrCol cs hs ls i with
  | some m, some a => some (100 * (m / (a + 1e-10)))
  | _, _ => none

/-- `DMI- = 100 * (minus_dm.rolling(14).mean() / (ATR + 1e-10))`. -/
def dmiMinusCol (cs hs ls : List ℚ) (i : Nat) : Option ℚ :=
  match rollMeanO 14 (minusDmCol ls) i, atrCol cs hs ls i with
  | some m, some a => some (100 * (m / (a + 1e-10)))
  | _, _ => none

/-- The first ADX assignment: `100 * |DMI+ - DMI-| / (DMI+ + DMI- + 1e-10)`. -/
def adxRawCol (cs hs ls : List ℚ) (i : Nat) : Option ℚ :=
  match dmiPlusCol cs hs ls i, dmiMinusCol cs hs ls i with
  | some p, some m => some (100 * |p - m| / (p + m + 1e-10))
  | _, _ => none

/-- ADX: the 14-day rolling mean that overwrites the raw ADX column. -/
def adxCol (cs hs ls : List ℚ) (i : Nat) : Option ℚ :=
  rollMeanO 14 (adxRawCol cs hs ls) i

/-! ## The enriched indicator row and the engine -/

/-- One row of the dataframe produced by `_calculate_technical_indicators`:
the raw OHLCV bar plus every indicator column, each an `Option ℚ` whose
`none` is a pandas missing value. -/
structure IndRow where
  base : OHLCV
  MA5 : Option ℚ
  MA10 : Option ℚ
  MA20 : Option ℚ
  MA60 : Option ℚ
  RSI : Option ℚ
  MACD : Option ℚ
  MACD_Signal : Option ℚ
  MACD_Hist : Option ℚ
  KDJ_K : Option ℚ
  KDJ_D : Option ℚ
  KDJ_J : Option ℚ
  OBV : Option ℚ
  ATR : Option ℚ
  CCI : Option ℚ
  SAR : Option ℚ
  BB_Middle : Option ℚ
  BB_Upper : Option ℚ
  BB_Lower : Option ℚ
  BB_Width : Option ℚ
  Volume_Change : Option ℚ
  Volume_MA5 : Option ℚ
  Volume_MA20 : Option ℚ
  Price_Change : Option ℚ
  Price_Change_5d : Option ℚ
  Price_Change_20d : Option ℚ
  Williams_R : Option ℚ
  DMI_Plus : Option ℚ
  DMI_Minus : Option ℚ
  ADX : Option ℚ
deriving DecidableEq

/-- Row `i` of the indicator dataframe.  The Bollinger columns combine the
20-day rolling mean and rolling standard deviation; `SAR` is the source's
simplified `Close.rolling(5).min()`. -/
def mkIndRow (df : List OHLCV) (cs hs ls vs : List ℚ) (i : Nat) : IndRow :=
  { base := df.getD i default
    MA5 := rollMean 5 cs i
    MA10 := rollMean 10 cs i
    MA20 := rollMean 20 cs i
    MA60 := rollMean 60 cs i
    RSI := rsiCol cs i
    MACD := macdCol cs i
    MACD_Signal := macdSignalCol cs i
    MACD_Hist := macdHistCol cs i
    KDJ_K := kdjKCol cs hs ls i
    KDJ_D := kdjDCol cs hs ls i
    KDJ_J := kdjJCol cs hs ls i
    OBV := obvCol cs vs i
    ATR := atrCol cs hs ls i
    CCI := cciCol cs hs ls i
    SAR := rollMin 5 cs i
    BB_Middle := rollMean 20 cs i
    BB_Upper :=
      match rollMean 20 cs i, rollStd 20 cs i with
      | some m, some s => some (m + s * 2)
      | _, _ => none
    BB_Lower :=
      match rollMean 20 cs i, rollStd 20 cs i with
      | some m, some s => some (m - s * 2)
      | _, _ => none
    BB_Width :=
      match rollMean 20 cs i, rollStd 20 cs i with
      | some m, some s => some (((m + s * 2) - (m - s * 2)) / m)
      | _, _ => none
    Volume_Change := pctChangeCol vs 1 i
    Volume_MA5 := rollMean 5 vs i
    Volume_MA20 := rollMean 20 vs i
    Price_Change := pctChangeCol cs 1 i
    Price_Change_5d := pctChangeCol cs 5 i
    Price_Change_20d := pctChangeCol cs 20 i
    Williams_R := williamsRCol cs hs ls i
    DMI_Plus := dmiPlusCol cs hs ls i
    DMI_Minus := dmiMinusCol cs hs ls i
    ADX := adxCol cs hs ls i }

/-- `_calculate_technical_indicators`: the input table with every indicator
column appended, same row count and order. -/
def calculateTechnicalIndicators (df : List OHLCV) : List IndRow :=
  (List.range df.length).map
    (mkIndRow df (df.map (·.Close)) (df.map (·.High)) (df.map (·.Low))
      (df.map (·.Volume)))

/-- A row survives `DataFrame.dropna()`: every indicator cell is present.
`MA60` is listed first only to keep concrete evaluation cheap; the conjunction
is order-insensitive. -/
def rowComplete (r : IndRow) : Bool :=
  r.MA60.isSome && r.MA5.isSome && r.MA10.isSome && r.MA20.isSome &&
  r.RSI.isSome && r.MACD.isSome && r.MACD_Signal.isSome && r.MACD_Hist.isSome &&
  r.KDJ_K.isSome && r.KDJ_D.isSome && r.KDJ_J.isSome && r.OBV.isSome &&
  r.ATR.isSome && r.CCI.isSome && r.SAR.isSome && r.BB_Middle.isSome &&
  r.BB_Upper.isSome && r.BB_Lower.isSome && r.BB_Width.isSome &&
  r.Volume_Change.isSome && r.Volume_MA5.isSome && r.Volume_MA20.isSome &&
  r.Price_Change.isSome && r.Price_Change_5d.isSome && r.Price_Change_20d.isSome &&
  r.Williams_R.isSome && r.DMI_Plus.isSome && r.DMI_Minus.isSome && r.ADX.isSome

/-- `df.dropna()` applied to the indicator dataframe. -/
def dropIncomplete (df : List OHLCV) : List IndRow :=
  (calculateTechnicalIndicators df).filter rowComplete

theorem rowComplete_false_of_lt_59 (df : List OHLCV) (cs hs ls vs : List ℚ)
    (i : Nat) (h : i < 59) : rowComplete (mkIndRow df cs hs ls vs i) = false := by
  have h60 : ¬(60 ≤ i + 1) := by omega
  simp [rowComplete, mkIndRow, rollMean, h60]

/-- Fewer than 60 raw rows leave `MA60` missing everywhere, so `dropna`
removes every row. -/
theorem dropIncomplete_eq_nil_of_short (df : List OHLCV) (h : df.length < 60) :
    dropIncomplete df = [] := by
  apply List.filter_eq_nil_iff.mpr
  intro r hr
  rw [calculateTechnicalIndicators] at hr
  obtain ⟨i, hi, rfl⟩ := List.mem_map.mp hr
  have hi59 : i < 59 := by
    have := List.mem_range.mp hi
    omega
  simp [rowComplete_false_of_lt_59 _ _ _ _ _ _ hi59]

/-! ## Forecast-model training (`stock_predictor.py`) -/

/-- Read an indicator cell that is known to be present (rows reaching the
feature extractor have survived `dropna`, so the default is never
exercised). -/
def oget (o : Option ℚ) : ℚ := o.getD 0

/-- The fixed feature order of `_prepare_features` (27 indicator columns). -/
def featureVector (r : IndRow) : List ℚ :=
  [oget r.MA5, oget r.MA10, oget r.MA20, oget r.MA60,
   oget r.RSI, oget r.KDJ_K, oget r.KDJ_D, oget r.KDJ_J,
   oget r.CCI, oget r.Williams_R,
   oget r.MACD, oget r.MACD_Signal, oget r.MACD_Hist,
   oget r.DMI_Plus, oget r.DMI_Minus, oget r.ADX,
   oget r.ATR, oget r.BB_Upper, oget r.BB_Lower, oget r.BB_Width,
   oget r.Volume_Change, oget r.Volume_MA5, oget r.Volume_MA20,
   oget r.OBV,
   oget r.Price_Change, oget r.Price_Change_5d, oget r.Price_Change_20d]

/-- `_prepare_features`: drop incomplete rows, then the feature matrix `X`
and the close-price target vector `y`. -/
def prepareFeatures (ind : List IndRow) : List (List ℚ) × List ℚ :=
  let clean := ind.filter rowComplete
  (clean.map featureVector, clean.map (·.base.Close))

/-- What a successful `train()` leaves in the predictor: the data handed to
the external regressor's `fit` (the target vector and the sample count) and
the cleaned dataframe kept in `last_df` for iterated forecasting.  The fitted
sklearn / keras estimator itself is a deterministic function of this data and
lives in the environment. -/
structure TrainState where
  fittedTargets : List ℚ
  trainingSamples : Nat
  lastDf : List IndRow
deriving DecidableEq

/-- `LinearRegressionPredictor.train` and `RandomForestPredictor.train` (their
bodies are identical data flows; they differ only in which external estimator
is fitted).  The fetched dataframe is the argument; `none` is the `False`
return.  Checks: fewer than 30 raw rows, then fewer than 20 clean rows. -/
def regressorTrain (df : List OHLCV) : Option TrainState :=
  if df.length < 30 then none
  else
    let ind := calculateTechnicalIndicators df
    let Xy := prepareFeatures ind
    if Xy.1.length < 20 then none
    else some { fittedTargets := Xy.2, trainingSamples := Xy.1.length,
                lastDf := ind.filter rowComplete }

/-- The LSTM feature list: `Close` first, then the same 27 indicator columns. -/
def lstmFeatureVector (r : IndRow) : List ℚ := r.base.Close :: featureVector r

/-- `LSTMPredictor._create_sequences`: sliding windows of width `lookback`
and the next row's first feature (the close) as target. -/
def createSequences (lookback : Nat) (data : List (List ℚ)) :
    List (List (List ℚ)) × List ℚ :=
  ((List.range (data.length - lookback)).map (fun i => (data.drop i).take lookback),
   (List.range (data.length - lookback)).map
     (fun i => (data.getD (i + lookback) []).headD 0))

/-- `LSTMPredictor.train`.  The keras capability gate comes first; then the
empty-fetch check, the post-`dropna` minimum `lookback + 30 = 90`, and the
sequence-count check.  The `MinMaxScaler` is an external, row-count-preserving
transformation, so the length checks are unaffected by omitting it; the keras
fit is external. -/
def lstmTrain (kerasAvailable : Bool) (df : List OHLCV) : Option TrainState :=
  if kerasAvailable = false then none
  else if df.length = 0 then none
  else
    let clean := dropIncomplete df
    if clean.length < 60 + 30 then none
    else
      let Xy := createSequences 60 (clean.map lstmFeatureVector)
      if Xy.1.length < 20 then none
      else some { fittedTargets := Xy.2, trainingSamples := clean.length,
                  lastDf := clean }

/-- `BasePredictor._calculate_confidence`: base 0.85, linear decay 0.02 per
day ahead, clamped to [0.3, 1.0]. -/
def calculateConfidence (daysAhead : Nat) : ℚ :=
  max 0.3 (min 1.0 (0.85 - (daysAhead : ℚ) * 0.02))

/-! ## Backtest orchestration (`stock_backtest_router.py`) -/

/-- The fixed extension lookup `period_map` with default `'2y'`. -/
def periodMap (p : String) : String :=
  if p == "3mo" then "6mo"
  else if p == "6mo" then "1y"
  else if p == "1y" then "2y"
  else if p == "2y" then "3y"
  else if p == "5y" then "max"
  else "2y"

/-- Outcome of the guard-and-split prologue of `_run_backtest`
(lines 166-187): the two structured insufficient-data failures, or the
training/validation slices cut at `len - backtest_days`. -/
inductive SplitOutcome where
  | insufficientHistory
  | insufficientTraining
  | ok (trainDf actualDf : List OHLCV)
deriving DecidableEq

/-- Guards and split of `_run_backtest`: fail when the fetch has fewer than
60 rows, fail when the split point `len - backtest_days` leaves fewer than 60
training rows, otherwise split.  (Python's `split_index` can be negative when
`backtest_days > len`; it is then `< 60` exactly as the truncated `Nat`
subtraction is.) -/
def backtestSplit (df : List OHLCV) (backtestDays : Nat) : SplitOutcome :=
  if df.length < 60 then SplitOutcome.insufficientHistory
  else if df.length - backtestDays < 60 then SplitOutcome.insufficientTraining
  else SplitOutcome.ok (df.take (df.length - backtestDays))
    (df.drop (df.length - backtestDays))

/-- One element of the list returned by `predict_next_days`. -/
structure ForecastPoint where
  date : String
  predictedPrice : ℚ
  confidence : ℚ
deriving DecidableEq

/-- The environment: the capabilities external to the repository's own code.
`fetch` is `yf.Ticker(...).history(period=...)` for the fixed ticker of a
request; `kerasAvailable` is the `KERAS_AVAILABLE` import flag;
`predictNextDays` is the predictor's forecasting routine, a deterministic
function of the model family, of the fitted training data and of the horizon
(its numeric core — the fitted sklearn scaler and regressor, or the keras
network — is floating-point library behaviour). -/
structure Env where
  fetch : String → List OHLCV
  kerasAvailable : Bool
  predictNextDays : String → TrainState → Nat → List ForecastPoint

/-- The model-dispatch-plus-`train()` step of `_run_backtest`
(lines 190-207).  The router first assigns the training slice to
`predictor.last_df` "manually (instead of auto-downloading)", but every
`train()` implementation begins by fetching `self.period` afresh and ends by
overwriting `last_df` with data derived from that fetch, so the assignment is
dead on every successful path and the state below depends only on the
re-fetch. -/
def backtestTrain (env : Env) (modelType : String) (period : String) :
    Option TrainState :=
  if modelType == "linear" then regressorTrain (env.fetch period)
  else if modelType == "random_forest" then regressorTrain (env.fetch period)
  else if modelType == "lstm" then lstmTrain env.kerasAvailable (env.fetch period)
  else none

/-- One row of `comparison_data`: a forecast point paired positionally with
the actual close of the same offset. -/
structure ComparisonRow where
  date : String
  predictedPrice : ℚ
  actualPrice : ℚ
  error : ℚ
  errorPercentage : ℚ
  confidence : ℚ
deriving DecidableEq

/-- The pairing loop of `_run_backtest` (lines 227-235):
`predictions[:actual_days]` is enumerated and entry `i` is paired with
`actual_prices[i]`. -/
def pairComparison (predictions : List ForecastPoint) (actualPrices : List ℚ) :
    List ComparisonRow :=
  predictions.zipWith
    (fun pr a =>
      { date := pr.date
        predictedPrice := pr.predictedPrice
        actualPrice := a
        error := pr.predictedPrice - a
        errorPercentage := (pr.predictedPrice - a) / a * 100
        confidence := pr.confidence })
    actualPrices

/-- The success payload of `_run_backtest` (dates and the external in-sample
R² are omitted; `fittedTargets` records the predictor state the payload's
`model_metrics` is computed from — the close targets handed to `fit`). -/
structure BTSuccess where
  modelType : String
  backtestDays : Nat
  trainingPeriod : String
  trainRows : Nat
  comparisonData : List ComparisonRow
  trainingEndPrice : ℚ
  trainingSamples : Nat
  fittedTargets : List ℚ
deriving DecidableEq

/-- A backtest result value: `{'success': False, 'message'/'error': ...}` or
the success payload.  All failures of `_run_backtest` are returned values,
never exceptions crossing the router boundary. -/
inductive BTResult where
  | failure (message : String)
  | success (payload : BTSuccess)
deriving DecidableEq

/-- `_run_backtest`: fetch the extended period, guard and split, dispatch on
the model type (unknown types are the structured `不支援的模型類型` failure),
train, forecast `len(actual_df)` days, pair positionally, and assemble the
payload. -/
def runBacktest (env : Env) (modelType : String) (backtestDays : Nat)
    (trainingPeriod : String) : BTResult :=
  let df := env.fetch (periodMap trainingPeriod)
  match backtestSplit df backtestDays with
  | SplitOutcome.insufficientHistory => BTResult.failure "歷史數據不足，無法進行回測"
  | SplitOutcome.insufficientTraining => BTResult.failure "訓練數據不足"
  | SplitOutcome.ok trainDf actualDf =>
    if modelType ≠ "linear" ∧ modelType ≠ "random_forest" ∧ modelType ≠ "lstm" then
      BTResult.failure ("不支援的模型類型: " ++ modelType)
    else
      match backtestTrain env modelType trainingPeriod with
      | none => BTResult.failure "模型訓練失敗"
      | some st =>
        let actualDays := actualDf.length
        let predictions := env.predictNextDays modelType st actualDays
        if predictions.isEmpty then BTResult.failure "預測失敗"
        else
          BTResult.success
            { modelType := modelType
              backtestDays := actualDays
              trainingPeriod := trainingPeriod
              trainRows := trainDf.length
              comparisonData :=
                pairComparison (predictions.take actualDays) (actualDf.map (·.Close))
              trainingEndPrice := ((trainDf.map (·.Close)).getLastD 0)
              trainingSamples := st.trainingSamples
              fittedTargets := st.fittedTargets }

/-- One slot of the `results` dict built by `compare_model_backtest`
(lines 104-120): the LSTM capability gate produces its own distinct failure
record without calling `_run_backtest`; every other entry is that model's own
independent backtest. -/
def backtestSlot (env : Env) (modelName : String) (backtestDays : Nat)
    (trainingPeriod : String) : BTResult :=
  if modelName == "lstm" && !env.kerasAvailable then
    BTResult.failure "LSTM 需要安裝 TensorFlow/Keras"
  else runBacktest env modelName backtestDays trainingPeriod

/-- The comparison loop of `compare_model_backtest`: one result slot per
requested model, keyed by model name. -/
def compareModelBacktest (env : Env) (models : List String) (backtestDays : Nat)
    (trainingPeriod : String) : List (String × BTResult) :=
  models.map (fun m => (m, backtestSlot env m backtestDays trainingPeriod))

/-! ## Trading-signal analyzer (`stock_signal_analyzer.py`) -/

/-- The discrete signal classification. -/
inductive SignalType where
  | strong_buy
  | buy
  | hold
  | sell
  | strong_sell
deriving DecidableEq

/-- One row of the dataframe the analyzer consumes.  The analyzer reads the
cells directly (it runs on rows whose indicators are present), so the fields
are plain rationals. -/
structure SignalRow where
  Close : ℚ
  High : ℚ
  Low : ℚ
  Volume : ℚ
  MA5 : ℚ
  MA10 : ℚ
  MA20 : ℚ
  MA60 : ℚ
  RSI : ℚ
  MACD : ℚ
  MACD_Signal : ℚ
  MACD_Hist : ℚ
  KDJ_K : ℚ
  KDJ_D : ℚ
  KDJ_J : ℚ
  OBV : ℚ
  ATR : ℚ
  CCI : ℚ
  BB_Upper : ℚ
  BB_Lower : ℚ
  BB_Width : ℚ
  Volume_Change : ℚ
  Volume_MA5 : ℚ
  Volume_MA20 : ℚ
  Williams_R : ℚ
  DMI_Plus : ℚ
  DMI_Minus : ℚ
  ADX : ℚ
deriving DecidableEq

/-- `_check_ma_alignment`: `bullish`, `bearish` or `mixed`. -/
def checkMaAlignment (l : SignalRow) : String :=
  if l.MA5 > l.MA10 ∧ l.MA10 > l.MA20 ∧ l.MA20 > l.MA60 then "bullish"
  else if l.MA5 < l.MA10 ∧ l.MA10 < l.MA20 ∧ l.MA20 < l.MA60 then "bearish"
  else "mixed"

/-- The additive adjustments of `_analyze_trend` before clamping, with the
tag of each appended detail record (descriptions and strength labels are
presentation text and are not modelled). -/
def analyzeTrendRaw (l p : SignalRow) : ℚ × List String :=
  let macdAdj : ℚ × List String :=
    if l.MACD > l.MACD_Signal then
      (if p.MACD ≤ p.MACD_Signal then ((25 : ℚ), ["golden_cross"])
       else ((15 : ℚ), ["bullish"]))
    else
      (if p.MACD ≥ p.MACD_Signal then ((-25 : ℚ), ["death_cross"])
       else ((-15 : ℚ), ["bearish"]))
  let histAdj : ℚ × List String :=
    if l.MACD_Hist > 0 ∧ l.MACD_Hist > p.MACD_Hist then ((10 : ℚ), ["increasing"])
    else if l.MACD_Hist < 0 ∧ l.MACD_Hist < p.MACD_Hist then ((-10 : ℚ), ["decreasing"])
    else ((0 : ℚ), [])
  let adxAdj : ℚ × List String :=
    if l.ADX > 25 then
      (if l.DMI_Plus > l.DMI_Minus then ((15 : ℚ), ["strong_uptrend"])
       else ((-15 : ℚ), ["strong_downtrend"]))
    else ((0 : ℚ), ["no_trend"])
  let maAdj : ℚ × List String :=
    if checkMaAlignment l == "bullish" then ((10 : ℚ), ["bullish"])
    else if checkMaAlignment l == "bearish" then ((-10 : ℚ), ["bearish"])
    else ((0 : ℚ), [])
  let ma60Adj : ℚ × List String :=
    if l.Close > l.MA60 then ((5 : ℚ), ["above"]) else ((-5 : ℚ), ["below"])
  (50 + macdAdj.1 + histAdj.1 + adxAdj.1 + maAdj.1 + ma60Adj.1,
   macdAdj.2 ++ histAdj.2 ++ adxAdj.2 ++ maAdj.2 ++ ma60Adj.2)

/-- `_analyze_trend`: neutral baseline 50 plus adjustments, clamped to
[0, 100]. -/
def analyzeTrend (l p : SignalRow) : ℚ × List String :=
  (clamp0100 (analyzeTrendRaw l p).1, (analyzeTrendRaw l p).2)

/-- The additive adjustments of `_analyze_momentum` before clamping. -/
def analyzeMomentumRaw (l p : SignalRow) : ℚ × List String :=
  let rsiAdj : ℚ × List String :=
    if l.RSI < 30 then ((20 : ℚ), ["oversold"])
    else if l.RSI > 70 then ((-20 : ℚ), ["overbought"])
    else if 40 ≤ l.RSI ∧ l.RSI ≤ 60 then ((0 : ℚ), ["neutral"])
    else if l.RSI > 60 then ((10 : ℚ), ["strong"])
    else ((-10 : ℚ), ["weak"])
  let kdjCrossAdj : ℚ × List String :=
    if l.KDJ_K > l.KDJ_D ∧ p.KDJ_K ≤ p.KDJ_D then ((15 : ℚ), ["golden_cross"])
    else if l.KDJ_K < l.KDJ_D ∧ p.KDJ_K ≥ p.KDJ_D then ((-15 : ℚ), ["death_cross"])
    else ((0 : ℚ), [])
  let kdjJAdj : ℚ × List String :=
    if l.KDJ_J < 20 then ((10 : ℚ), ["oversold"])
    else if l.KDJ_J > 80 then ((-10 : ℚ), ["overbought"])
    else ((0 : ℚ), [])
  let cciAdj : ℚ × List String :=
    if l.CCI > 100 then ((-10 : ℚ), ["overbought"])
    else if l.CCI < -100 then ((10 : ℚ), ["oversold"])
    else ((0 : ℚ), [])
  let wrAdj : ℚ × List String :=
    if l.Williams_R > -20 then ((-10 : ℚ), ["overbought"])
    else if l.Williams_R < -80 then ((10 : ℚ), ["oversold"])
    else ((0 : ℚ), [])
  (50 + rsiAdj.1 + kdjCrossAdj.1 + kdjJAdj.1 + cciAdj.1 + wrAdj.1,
   rsiAdj.2 ++ kdjCrossAdj.2 ++ kdjJAdj.2 ++ cciAdj.2 ++ wrAdj.2)

/-- `_analyze_momentum`, clamped to [0, 100]. -/
def analyzeMomentum (l p : SignalRow) : ℚ × List String :=
  (clamp0100 (analyzeMomentumRaw l p).1, (analyzeMomentumRaw l p).2)

/-- The additive adjustments of `_analyze_volume` before clamping; the OBV
baseline is the source's simplified `Volume_MA20 * Close`. -/
def analyzeVolumeRaw (l p : SignalRow) : ℚ × List String :=
  let vcAdj : ℚ × List String :=
    if l.Volume_Change > 50 then
      (if l.Close > p.Close then ((20 : ℚ), ["surge_bullish"])
       else ((-15 : ℚ), ["surge_bearish"]))
    else if l.Volume_Change > 20 then ((10 : ℚ), ["increasing"])
    else if l.Volume_Change < -30 then ((-10 : ℚ), ["shrinking"])
    else ((0 : ℚ), [])
  let obvAdj : ℚ × List String :=
    if l.OBV > l.Volume_MA20 * l.Close then ((15 : ℚ), ["bullish"])
    else ((-10 : ℚ), ["bearish"])
  let vmaAdj : ℚ × List String :=
    if l.Volume > l.Volume_MA5 * 1.5 then ((10 : ℚ), ["above"])
    else if l.Volume < l.Volume_MA5 * 0.7 then ((-5 : ℚ), ["below"])
    else ((0 : ℚ), [])
  (50 + vcAdj.1 + obvAdj.1 + vmaAdj.1, vcAdj.2 ++ obvAdj.2 ++ vmaAdj.2)

/-- `_analyze_volume`, clamped to [0, 100]. -/
def analyzeVolume (l p : SignalRow) : ℚ × List String :=
  (clamp0100 (analyzeVolumeRaw l p).1, (analyzeVolumeRaw l p).2)

/-- `_calculate_bb_position`: position of the close inside the Bollinger
band, clamped to [0, 1], `0.5` on a collapsed band. -/
def calculateBbPosition (l : SignalRow) : ℚ :=
  if l.BB_Upper - l.BB_Lower = 0 then 0.5
  else max 0 (min 1 ((l.Close - l.BB_Lower) / (l.BB_Upper - l.BB_Lower)))

/-- The additive adjustments of `_analyze_volatility` before clamping. -/
def analyzeVolatilityRaw (l p : SignalRow) : ℚ × List String :=
  let atrAdj : ℚ × List String :=
    if l.ATR / l.Close * 100 > 3 then ((-15 : ℚ), ["high_volatility"])
    else if l.ATR / l.Close * 100 < 1.5 then ((10 : ℚ), ["low_volatility"])
    else ((0 : ℚ), ["normal"])
  let bbAdj : ℚ × List String :=
    if calculateBbPosition l > 0.8 then ((-15 : ℚ), ["upper_band"])
    else if calculateBbPosition l < 0.2 then ((15 : ℚ), ["lower_band"])
    else ((0 : ℚ), [])
  let bwAdj : ℚ × List String :=
    if l.BB_Width / l.Close * 100 < 2 then ((5 : ℚ), ["squeeze"])
    else if l.BB_Width / l.Close * 100 > 6 then ((-5 : ℚ), ["expansion"])
    else ((0 : ℚ), [])
  (50 + atrAdj.1 + bbAdj.1 + bwAdj.1, atrAdj.2 ++ bbAdj.2 ++ bwAdj.2)

/-- `_analyze_volatility`, clamped to [0, 100]. -/
def analyzeVolatility (l p : SignalRow) : ℚ × List String :=
  (clamp0100 (analyzeVolatilityRaw l p).1, (analyzeVolatilityRaw l p).2)

/-- One entry of `prediction_data['predictions']`. -/
structure PredPoint where
  predictedPrice : ℚ
deriving DecidableEq

/-- The optional AI forecast handed to the analyzer. -/
structure PredData where
  predictions : List PredPoint
  currentPrice : ℚ
deriving DecidableEq

/-- The adjustment of `_analyze_ai_prediction` in the present-data branch:
nothing happens unless the list is non-empty and the current price is
positive; otherwise the first point's implied percentage change selects the
bucket. -/
def aiAdj (pd : PredData) : ℚ × List String :=
  match pd.predictions with
  | [] => ((0 : ℚ), [])
  | f :: _ =>
    if pd.currentPrice > 0 then
      (let changePct := (f.predictedPrice - pd.currentPrice) / pd.currentPrice * 100;
       if changePct > 5 then ((30 : ℚ), ["strong_bullish"])
       else if changePct > 2 then ((20 : ℚ), ["bullish"])
       else if changePct < -5 then ((-30 : ℚ), ["strong_bearish"])
       else if changePct < -2 then ((-20 : ℚ), ["bearish"])
       else ((0 : ℚ), ["neutral"]))
    else ((0 : ℚ), [])

/-- `_analyze_ai_prediction`: neutral 50 with an `unavailable` record when no
forecast is supplied (that branch returns before the clamp), otherwise the
clamped adjusted score. -/
def analyzeAiPrediction (pred : Option PredData) : ℚ × List String :=
  match pred with
  | none => ((50 : ℚ), ["unavailable"])
  | some pd => (clamp0100 (50 + (aiAdj pd).1), (aiAdj pd).2)

/-- The composite score of `analyze_signal` (lines 60-66): the weighted sum
of the five category scores with the fixed `signal_weights`
30/25/20/15/10 %. -/
def compositeScore (l p : SignalRow) (pred : Option PredData) : ℚ :=
  (analyzeTrend l p).1 * 0.30 +
  (analyzeMomentum l p).1 * 0.25 +
  (analyzeVolume l p).1 * 0.20 +
  (analyzeVolatility l p).1 * 0.15 +
  (analyzeAiPrediction pred).1 * 0.10

/-- `_determine_signal_type`: descending inclusive thresholds 75/60/40/25. -/
def determineSignalType (score : ℚ) : SignalType :=
  if score ≥ 75 then SignalType.strong_buy
  else if score ≥ 60 then SignalType.buy
  else if score ≥ 40 then SignalType.hold
  else if score ≥ 25 then SignalType.sell
  else SignalType.strong_sell

/-- `np.std` of a list (population deviation, `ddof = 0`), through
`ratSqrt`. -/
def qStd (l : List ℚ) : ℚ :=
  if l.length = 0 then 0
  else ratSqrt ((l.map (fun x => (x - l.sum / (l.length : ℚ)) ^ 2)).sum / (l.length : ℚ))

/-- The analyzer's `_calculate_confidence`: agreement of the five category
scores, `1 - std/50` clamped to [0.3, 1.0]. -/
def analyzerConfidence (scores : List ℚ) : ℚ :=
  max 0.3 (min 1.0 (1 - qStd scores / 50))

/-- `_calculate_support`: the lowest low of the trailing 20 rows. -/
def calculateSupport (df : List SignalRow) : ℚ :=
  listMinD ((df.drop (df.length - 20)).map (·.Low))

/-- `_calculate_resistance`: the highest high of the trailing 20 rows. -/
def calculateResistance (df : List SignalRow) : ℚ :=
  listMaxD ((df.drop (df.length - 20)).map (·.High))

/-- `_calculate_stop_loss`: 1.5 ATR against the position for buy and sell
signals, 1 ATR below for hold. -/
def calculateStopLoss (l : SignalRow) (signal : SignalType) : ℚ :=
  match signal with
  | SignalType.strong_buy | SignalType.buy => l.Close - l.ATR * 1.5
  | SignalType.strong_sell | SignalType.sell => l.Close + l.ATR * 1.5
  | SignalType.hold => l.Close - l.ATR * 1.0

/-- `_calculate_take_profit`: 3 ATR with the position for buy and sell
signals, 2 ATR above for hold. -/
def calculateTakeProfit (l : SignalRow) (signal : SignalType) : ℚ :=
  match signal with
  | SignalType.strong_buy | SignalType.buy => l.Close + l.ATR * 3
  | SignalType.strong_sell | SignalType.sell => l.Close - l.ATR * 3
  | SignalType.hold => l.Close + l.ATR * 2

/-- The risk distance `abs(current_price - stop_loss)` of
`_calculate_risk_reward`. -/
def riskDistance (l : SignalRow) (signal : SignalType) : ℚ :=
  |l.Close - calculateStopLoss l signal|

/-- The reward distance `abs(take_profit - current_price)` of
`_calculate_risk_reward`. -/
def rewardDistance (l : SignalRow) (signal : SignalType) : ℚ :=
  |calculateTakeProfit l signal - l.Close|

/-- `_calculate_risk_reward`: `0` when the risk distance is zero (the guard,
not an error), otherwise `round(reward / risk, 2)`. -/
def calculateRiskReward (l : SignalRow) (signal : SignalType) : ℚ :=
  if riskDistance l signal = 0 then 0
  else pyRound2 (rewardDistance l signal / riskDistance l signal)

/-- The five rounded per-category scores of the report. -/
structure CategoryScores where
  trend : ℚ
  momentum : ℚ
  volume : ℚ
  volatility : ℚ
  aiPrediction : ℚ
deriving DecidableEq

/-- The per-category detail tags of the report. -/
structure DetailTags where
  trend : List String
  momentum : List String
  volume : List String
  volatility : List String
  ai : List String
deriving DecidableEq

/-- The `key_levels` block of the report. -/
structure KeyLevels where
  currentPrice : ℚ
  support : ℚ
  resistance : ℚ
  stopLoss : ℚ
  takeProfit : ℚ
deriving DecidableEq

/-- The analyzer's report (the ticker echo, the wall-clock timestamp and the
interpolated recommendation text are presentation fields and are not
modelled).  The empty dicts of the sentinel are the `none` cases of the three
optional blocks. -/
structure SignalReport where
  signal : SignalType
  score : ℚ
  confidence : ℚ
  categoryScores : Option CategoryScores
  detailTags : Option DetailTags
  keyLevels : Option KeyLevels
  riskRewardRatio : ℚ
deriving DecidableEq

/-- `_empty_signal`: the defined sentinel for insufficient data — hold,
score 50, confidence 0, empty detail structures, risk-reward 0. -/
def emptySignal : SignalReport :=
  { signal := SignalType.hold
    score := 50
    confidence := 0
    categoryScores := none
    detailTags := none
    keyLevels := none
    riskRewardRatio := 0 }

/-- `analyze_signal`: the sentinel on fewer than two rows, otherwise the five
category analyses on the last two rows, the weighted composite, the signal
classification, the agreement confidence and the key levels. -/
def analyzeSignal (df : List SignalRow) (pred : Option PredData) : SignalReport :=
  match df.reverse with
  | latest :: previous :: _ =>
    let trend := analyzeTrend latest previous
    let momentum := analyzeMomentum latest previous
    let volume := analyzeVolume latest previous
    let volatility := analyzeVolatility latest previous
    let ai := analyzeAiPrediction pred
    let totalScore := trend.1 * 0.30 + momentum.1 * 0.25 + volume.1 * 0.20 +
      volatility.1 * 0.15 + ai.1 * 0.10
    let signalType := determineSignalType totalScore
    { signal := signalType
      score := pyRound2 totalScore
      confidence := pyRound2 (analyzerConfidence [trend.1, momentum.1, volume.1,
        volatility.1, ai.1])
      categoryScores := some
        { trend := pyRound2 trend.1
          momentum := pyRound2 momentum.1
          volume := pyRound2 volume.1
          volatility := pyRound2 volatility.1
          aiPrediction := pyRound2 ai.1 }
      detailTags := some
        { trend := trend.2, momentum := momentum.2, volume := volume.2,
          volatility := volatility.2, ai := ai.2 }
      keyLevels := some
        { currentPrice := latest.Close
          support := calculateSupport df
          resistance := calculateResistance df
          stopLoss := calculateStopLoss latest signalType
          takeProfit := calculateTakeProfit latest signalType }
      riskRewardRatio := calculateRiskReward latest signalType }
  | _ => emptySignal

/-! ## Shared lemmas about the risk/reward levels -/

theorem riskDistance_eq (l : SignalRow) (s : SignalType) :
    riskDistance l s = (if s = SignalType.hold then 1 else 3 / 2) * |l.ATR| := by
  have h32 : |(3 / 2 : ℚ)| = 3 / 2 := by norm_num
  have h1 : |(1 : ℚ)| = 1 := by norm_num
  cases s
  case strong_buy =>
    rw [riskDistance, calculateStopLoss,
      show l.Close - (l.Close - l.ATR * 1.5) = (3 / 2) * l.ATR by ring,
      abs_mul, h32]
    simp
  case buy =>
    rw [riskDistance, calculateStopLoss,
      show l.Close - (l.Close - l.ATR * 1.5) = (3 / 2) * l.ATR by ring,
      abs_mul, h32]
    simp
  case sell =>
    rw [riskDistance, calculateStopLoss,
      show l.Close - (l.Close + l.ATR * 1.5) = (-(3 / 2)) * l.ATR by ring,
      abs_mul, abs_neg, h32]
    simp
  case strong_sell =>
    rw [riskDistance, calculateStopLoss,
      show l.Close - (l.Close + l.ATR * 1.5) = (-(3 / 2)) * l.ATR by ring,
      abs_mul, abs_neg, h32]
    simp
  case hold =>
    rw [riskDistance, calculateStopLoss,
      show l.Close - (l.Close - l.ATR * 1.0) = (1 : ℚ) * l.ATR by ring,
      abs_mul, h1]
    simp

theorem rewardDistance_eq (l : SignalRow) (s : SignalType) :
    rewardDistance l s = (if s = SignalType.hold then 2 else 3) * |l.ATR| := by
  have h3 : |(3 : ℚ)| = 3 := by norm_num
  have h2 : |(2 : ℚ)| = 2 := by norm_num
  cases s
  case strong_buy =>
    rw [rewardDistance, calculateTakeProfit,
      show l.Close + l.ATR * 3 - l.Close = (3 : ℚ) * l.ATR by ring, abs_mul, h3]
    simp
  case buy =>
    rw [rewardDistance, calculateTakeProfit,
      show l.Close + l.ATR * 3 - l.Close = (3 : ℚ) * l.ATR by ring, abs_mul, h3]
    simp
  case sell =>
    rw [rewardDistance, calculateTakeProfit,
      show l.Close - l.ATR * 3 - l.Close = (-(3 : ℚ)) * l.ATR by ring,
      abs_mul, abs_neg, h3]
    simp
  case strong_sell =>
    rw [rewardDistance, calculateTakeProfit,
      show l.Close - l.ATR * 3 - l.Close = (-(3 : ℚ)) * l.ATR by ring,
      abs_mul, abs_neg, h3]
    simp
  case hold =>
    rw [rewardDistance, calculateTakeProfit,
      show l.Close + l.ATR * 2 - l.Close = (2 : ℚ) * l.ATR by ring, abs_mul, h2]
    simp

theorem riskDistance_eq_zero_iff (l : SignalRow) (s : SignalType) :
    riskDistance l s = 0 ↔ l.ATR = 0 := by
  rw [riskDistance_eq]
  constructor
  · intro h
    rcases mul_eq_zero.mp h with h1 | h1
    · exfalso
      revert h1
      split <;> norm_num
    · exact abs_eq_zero.mp h1
  · intro h
    rw [h]
    simp

theorem calculateRiskReward_eq (l : SignalRow) (s : SignalType) :
    calculateRiskReward l s = if l.ATR = 0 then 0 else 2 := by
  by_cases hA : l.ATR = 0
  · rw [calculateRiskReward, if_pos ((riskDistance_eq_zero_iff l s).mpr hA), if_pos hA]
  · have hr : riskDistance l s ≠ 0 := fun h => hA ((riskDistance_eq_zero_iff l s).mp h)
    rw [calculateRiskReward, if_neg hr, if_neg hA]
    have hdiv : rewardDistance l s / riskDistance l s = 2 := by
      rw [div_eq_iff hr, riskDistance_eq, rewardDistance_eq]
      split <;> ring
    rw [hdiv, pyRound2_two]

theorem stopLoss_eq_close_iff (l : SignalRow) (s : SignalType) :
    calculateStopLoss l s = l.Close ↔ l.ATR = 0 := by
  cases s <;> simp only [calculateStopLoss] <;> constructor <;> intro h <;> linarith

/-! ## Claim theorems -/

/-- C9: for every indicator row and every signal type, the risk-reward ratio
is nonnegative, and it is zero exactly when the stop-loss coincides with the
current price (the zero-risk case is the guarded value 0, not an error — the
embedding is total). -/
theorem c9_risk_reward_nonneg (l : SignalRow) (s : SignalType) :
    0 ≤ calculateRiskReward l s ∧
    (calculateRiskReward l s = 0 ↔ calculateStopLoss l s = l.Close) := by
  rw [calculateRiskReward_eq, stopLoss_eq_close_iff]
  by_cases hA : l.ATR = 0
  · rw [if_pos hA]
    exact ⟨le_refl 0, by simp [hA]⟩
  · rw [if_neg hA]
    exact ⟨by norm_num, by simp [hA]⟩

/-- C10: the reward distance is always exactly twice the risk distance
(buy/sell: 3 ATR against 1.5 ATR; hold: 2 ATR against 1 ATR), so the
risk-reward ratio takes only the two values 0 (when ATR is zero) and 2.0
(when it is not). -/
theorem c10_risk_reward_constant (l : SignalRow) (s : SignalType) :
    rewardDistance l s = 2 * riskDistance l s ∧
    calculateRiskReward l s = (if l.ATR = 0 then 0 else 2) := by
  refine ⟨?_, calculateRiskReward_eq l s⟩
  rw [riskDistance_eq, rewardDistance_eq]
  split <;> ring

/-- C3: on the valid score range [0, 100] the classification thresholds are
inclusive lower bounds checked in descending order: [75, 100] strong_buy,
[60, 75) buy, [40, 60) hold, [25, 40) sell, [0, 25) strong_sell; the
boundary scores 75, 60, 40, 25 land in the higher bucket. -/
theorem c3_signal_classification (s : ℚ) (h0 : 0 ≤ s) (h100 : s ≤ 100) :
    (determineSignalType s = SignalType.strong_buy ↔ 75 ≤ s) ∧
    (determineSignalType s = SignalType.buy ↔ 60 ≤ s ∧ s < 75) ∧
    (determineSignalType s = SignalType.hold ↔ 40 ≤ s ∧ s < 60) ∧
    (determineSignalType s = SignalType.sell ↔ 25 ≤ s ∧ s < 40) ∧
    (determineSignalType s = SignalType.strong_sell ↔ s < 25) := by
  unfold determineSignalType
  split_ifs with h1 h2 h3 h4 <;>
    refine ⟨⟨fun hx => ?_, fun hx => ?_⟩, ⟨fun hx => ?_, fun hx => ?_⟩,
      ⟨fun hx => ?_, fun hx => ?_⟩, ⟨fun hx => ?_, fun hx => ?_⟩,
      ⟨fun hx => ?_, fun hx => ?_⟩⟩ <;>
    first
      | rfl
      | exact hx.elim
      | linarith
      | (exact SignalType.noConfusion hx)
      | (exfalso; linarith)
      | (refine ⟨?_, ?_⟩ <;> linarith)

/-- C3 witness: each boundary value classifies into the higher bucket. -/
theorem c3_witness :
    ((0 : ℚ) ≤ 75 ∧ (75 : ℚ) ≤ 100) ∧
    determineSignalType 75 = SignalType.strong_buy ∧
    determineSignalType 60 = SignalType.buy ∧
    determineSignalType 40 = SignalType.hold ∧
    determineSignalType 25 = SignalType.sell ∧
    determineSignalType 24 = SignalType.strong_sell :=
  ⟨⟨by norm_num, by norm_num⟩,
   (c3_signal_classification 75 (by norm_num) (by norm_num)).1.mpr (by norm_num),
   (c3_signal_classification 60 (by norm_num) (by norm_num)).2.1.mpr (by norm_num),
   (c3_signal_classification 40 (by norm_num) (by norm_num)).2.2.1.mpr (by norm_num),
   (c3_signal_classification 25 (by norm_num) (by norm_num)).2.2.2.1.mpr (by norm_num),
   (c3_signal_classification 24 (by norm_num) (by norm_num)).2.2.2.2.mpr (by norm_num)⟩

/-- C4: the base forecast confidence is exactly
`max(0.3, min(1.0, 0.85 - 0.02 * days_ahead))`; on the horizon range [1, 90]
it is monotonically non-increasing in `days_ahead` and stays inside
[0.3, 1.0]. -/
theorem c4_confidence_decay :
    (∀ d : Nat, calculateConfidence d = max 0.3 (min 1.0 (0.85 - 0.02 * (d : ℚ)))) ∧
    (∀ d e : Nat, 1 ≤ d → d ≤ e → e ≤ 90 →
      calculateConfidence e ≤ calculateConfidence d) ∧
    (∀ d : Nat, 1 ≤ d → d ≤ 90 →
      calculateConfidence d ∈ Set.Icc (0.3 : ℚ) 1) := by
  refine ⟨fun d => by rw [calculateConfidence, mul_comm], ?_, ?_⟩
  · intro d e _ hde _
    unfold calculateConfidence
    have hc : (d : ℚ) ≤ (e : ℚ) := by exact_mod_cast hde
    have hmul : (d : ℚ) * 0.02 ≤ (e : ℚ) * 0.02 :=
      mul_le_mul_of_nonneg_right hc (by norm_num)
    exact max_le_max le_rfl (min_le_min le_rfl (by linarith))
  · intro d _ _
    unfold calculateConfidence
    constructor
    · exact le_max_left _ _
    · exact max_le (by norm_num) (le_trans (min_le_left _ _) (by norm_num))

/-- C4 witness: the theorem at days-ahead 1 and 2. -/
theorem c4_witness :
    calculateConfidence 1 = max 0.3 (min 1.0 (0.85 - 0.02 * (1 : ℚ))) ∧
    calculateConfidence 2 ≤ calculateConfidence 1 ∧
    calculateConfidence 1 ∈ Set.Icc (0.3 : ℚ) 1 :=
  ⟨by simpa using c4_confidence_decay.1 1,
   c4_confidence_decay.2.1 1 2 (by norm_num) (by norm_num) (by norm_num),
   c4_confidence_decay.2.2 1 (by norm_num) (by norm_num)⟩

/-- C6: an empty table or a single-row table (every input with fewer than two
rows) makes the analyzer return the defined empty-signal sentinel — hold,
score 50, confidence 0, empty detail structures and zero risk-reward — as a
value, not a failure. -/
theorem c6_empty_signal_sentinel :
    (∀ pred : Option PredData, analyzeSignal [] pred = emptySignal) ∧
    (∀ (r : SignalRow) (pred : Option PredData), analyzeSignal [r] pred = emptySignal) ∧
    emptySignal.signal = SignalType.hold ∧
    emptySignal.score = 50 ∧
    emptySignal.confidence = 0 ∧
    emptySignal.categoryScores = none ∧
    emptySignal.detailTags = none ∧
    emptySignal.keyLevels = none ∧
    emptySignal.riskRewardRatio = 0 :=
  ⟨fun _ => rfl, fun _ _ => rfl, rfl, rfl, rfl, rfl, rfl, rfl, rfl⟩

theorem analyzeAi_fst_mem (pred : Option PredData) :
    (analyzeAiPrediction pred).1 ∈ Set.Icc (0 : ℚ) 100 := by
  cases pred with
  | none =>
    constructor <;> norm_num [analyzeAiPrediction]
  | some pd => exact clamp0100_mem _

theorem weightedSum_mem (t m v w a : ℚ)
    (ht : t ∈ Set.Icc (0 : ℚ) 100) (hm : m ∈ Set.Icc (0 : ℚ) 100)
    (hv : v ∈ Set.Icc (0 : ℚ) 100) (hw : w ∈ Set.Icc (0 : ℚ) 100)
    (ha : a ∈ Set.Icc (0 : ℚ) 100) :
    t * 0.30 + m * 0.25 + v * 0.20 + w * 0.15 + a * 0.10 ∈ Set.Icc (0 : ℚ) 100 := by
  obtain ⟨ht0, ht1⟩ := ht
  obtain ⟨hm0, hm1⟩ := hm
  obtain ⟨hv0, hv1⟩ := hv
  obtain ⟨hw0, hw1⟩ := hw
  obtain ⟨ha0, ha1⟩ := ha
  constructor <;> nlinarith

/-- C5: for any table of at least two rows (written as `(l :: p :: rest)`
reversed, so `l` is the last row and `p` the one before it), the analyzer's
composite score is the weighted sum of the five category scores with the
fixed weights 30/25/20/15/10 %, each category score is clamped to [0, 100],
and the composite therefore lies in [0, 100]; the reported `score` field is
that composite rounded to two decimals. -/
theorem c5_composite_weighted_sum (l p : SignalRow) (rest : List SignalRow)
    (pred : Option PredData) :
    (analyzeSignal ((l :: p :: rest).reverse) pred).score =
      pyRound2 (compositeScore l p pred) ∧
    compositeScore l p pred =
      (analyzeTrend l p).1 * 0.30 + (analyzeMomentum l p).1 * 0.25 +
      (analyzeVolume l p).1 * 0.20 + (analyzeVolatility l p).1 * 0.15 +
      (analyzeAiPrediction pred).1 * 0.10 ∧
    (analyzeTrend l p).1 ∈ Set.Icc (0 : ℚ) 100 ∧
    (analyzeMomentum l p).1 ∈ Set.Icc (0 : ℚ) 100 ∧
    (analyzeVolume l p).1 ∈ Set.Icc (0 : ℚ) 100 ∧
    (analyzeVolatility l p).1 ∈ Set.Icc (0 : ℚ) 100 ∧
    (analyzeAiPrediction pred).1 ∈ Set.Icc (0 : ℚ) 100 ∧
    compositeScore l p pred ∈ Set.Icc (0 : ℚ) 100 := by
  refine ⟨?_, rfl, clamp0100_mem _, clamp0100_mem _, clamp0100_mem _,
    clamp0100_mem _, analyzeAi_fst_mem pred, ?_⟩
  · unfold analyzeSignal
    rw [List.reverse_reverse]
    rfl
  · exact weightedSum_mem _ _ _ _ _ (clamp0100_mem _) (clamp0100_mem _)
      (clamp0100_mem _) (clamp0100_mem _) (analyzeAi_fst_mem pred)

/-- C2: whenever the fetch yields enough rows (at least 60 in total and at
least 60 left of the split point), the split at `len - backtest_days`
produces slices whose row counts add up to the fetched total with exactly
`backtest_days` validation rows; otherwise `_run_backtest` returns one of the
two structured insufficient-data failure values (a value, not an exception —
the embedding is total) and no partial backtest result. -/
theorem c2_backtest_split_invariant (df : List OHLCV) (days : Nat) :
    (60 ≤ df.length → 60 ≤ df.length - days →
      backtestSplit df days =
        SplitOutcome.ok (df.take (df.length - days)) (df.drop (df.length - days)) ∧
      (df.take (df.length - days)).length + (df.drop (df.length - days)).length =
        df.length ∧
      (df.drop (df.length - days)).length = days) ∧
    (df.length < 60 ∨ df.length - days < 60 →
      ∀ (env : Env) (modelType trainingPeriod : String),
        env.fetch (periodMap trainingPeriod) = df →
        runBacktest env modelType days trainingPeriod =
            BTResult.failure "歷史數據不足，無法進行回測" ∨
          runBacktest env modelType days trainingPeriod =
            BTResult.failure "訓練數據不足") := by
  constructor
  · intro h60 hsplit
    have hdays : days ≤ df.length := by omega
    refine ⟨?_, ?_, ?_⟩
    · rw [backtestSplit, if_neg (by omega), if_neg (by omega)]
    · rw [List.length_take, List.length_drop]
      omega
    · rw [List.length_drop]
      omega
  · intro hbad env modelType trainingPeriod hf
    rw [runBacktest, hf]
    by_cases h1 : df.length < 60
    · left
      rw [backtestSplit, if_pos h1]
    · right
      have h2 : df.length - days < 60 := by omega
      rw [backtestSplit, if_neg h1, if_pos h2]

/-- C2 witness: a 130-row fetch with a 30-day horizon splits into slices of
100 and 30 rows; a 59-row fetch makes `_run_backtest` return the structured
failure. -/
theorem c2_witness :
    (backtestSplit (List.replicate 130 (default : OHLCV)) 30 =
      SplitOutcome.ok
        ((List.replicate 130 (default : OHLCV)).take
          ((List.replicate 130 (default : OHLCV)).length - 30))
        ((List.replicate 130 (default : OHLCV)).drop
          ((List.replicate 130 (default : OHLCV)).length - 30)) ∧
     ((List.replicate 130 (default : OHLCV)).take
          ((List.replicate 130 (default : OHLCV)).length - 30)).length +
        ((List.replicate 130 (default : OHLCV)).drop
          ((List.replicate 130 (default : OHLCV)).length - 30)).length =
        (List.replicate 130 (default : OHLCV)).length ∧
     ((List.replicate 130 (default : OHLCV)).drop
        ((List.replicate 130 (default : OHLCV)).length - 30)).length = 30) ∧
    (runBacktest
        { fetch := fun _ => List.replicate 59 (default : OHLCV)
          kerasAvailable := true
          predictNextDays := fun _ _ _ => [] } "linear" 30 "1y" =
          BTResult.failure "歷史數據不足，無法進行回測" ∨
     runBacktest
        { fetch := fun _ => List.replicate 59 (default : OHLCV)
          kerasAvailable := true
          predictNextDays := fun _ _ _ => [] } "linear" 30 "1y" =
          BTResult.failure "訓練數據不足") := by
  constructor
  · exact (c2_backtest_split_invariant (List.replicate 130 (default : OHLCV)) 30).1
      (by simp only [List.length_replicate]; norm_num)
      (by simp only [List.length_replicate]; norm_num)
  · exact (c2_backtest_split_invariant (List.replicate 59 (default : OHLCV)) 30).2
      (Or.inl (by simp only [List.length_replicate]; norm_num)) _ "linear" "1y" rfl

theorem prepareFeatures_fst_length (df : List OHLCV) :
    (prepareFeatures (calculateTechnicalIndicators df)).1.length =
      (dropIncomplete df).length := by
  simp [prepareFeatures, dropIncomplete]

/-- C7: every fetched series shorter than 60 rows makes every model's
`train()` return the failure value (never an exception — the embedding is
total); in particular the linear/ensemble models fail whenever fewer than 20
clean rows survive the indicator computation and `dropna`, and the sequence
model fails whenever fewer than `lookback + 30 = 90` clean rows survive. -/
theorem c7_train_insufficient_data (df : List OHLCV) (keras : Bool) :
    (df.length < 60 → regressorTrain df = none ∧ lstmTrain keras df = none) ∧
    ((dropIncomplete df).length < 20 → regressorTrain df = none) ∧
    ((dropIncomplete df).length < 60 + 30 → lstmTrain keras df = none) := by
  have hreg : (dropIncomplete df).length < 20 → regressorTrain df = none := by
    intro hclean
    rw [regressorTrain]
    by_cases h30 : df.length < 30
    · rw [if_pos h30]
    · rw [if_neg h30, if_pos (by rw [prepareFeatures_fst_length]; exact hclean)]
  have hlstm : (dropIncomplete df).length < 60 + 30 → lstmTrain keras df = none := by
    intro hclean
    rw [lstmTrain]
    cases keras with
    | false => rw [if_pos rfl]
    | true =>
      rw [if_neg (by simp)]
      by_cases h0 : df.length = 0
      · rw [if_pos h0]
      · rw [if_neg h0, if_pos hclean]
  refine ⟨?_, hreg, hlstm⟩
  intro h60
  have hnil : dropIncomplete df = [] := dropIncomplete_eq_nil_of_short df h60
  constructor
  · exact hreg (by rw [hnil]; norm_num)
  · exact hlstm (by rw [hnil]; norm_num)

/-- C7 witness: a 59-row series fails both the linear/ensemble and the
sequence `train()`, even with the keras capability present. -/
theorem c7_witness :
    (List.replicate 59 (default : OHLCV)).length < 60 ∧
    regressorTrain (List.replicate 59 (default : OHLCV)) = none ∧
    lstmTrain true (List.replicate 59 (default : OHLCV)) = none := by
  have h := (c7_train_insufficient_data (List.replicate 59 (default : OHLCV)) true).1
    (by simp only [List.length_replicate]; norm_num)
  exact ⟨by simp only [List.length_replicate]; norm_num, h.1, h.2⟩

theorem compareModelBacktest_lookup (env : Env) (models : List String)
    (days : Nat) (period : String) (m : String) (hm : m ∈ models) :
    (compareModelBacktest env models days period).lookup m =
      some (backtestSlot env m days period) := by
  induction models with
  | nil => cases hm
  | cons x xs ih =>
    rw [compareModelBacktest, List.map_cons, List.lookup_cons]
    by_cases hbeq : (m == x) = true
    · rw [hbeq, eq_of_beq hbeq]
    · have hfalse : (m == x) = false := (Bool.not_eq_true _).mp hbeq
      rw [hfalse]
      have hmx : m ∈ xs := by
        cases hm with
        | head => exact absurd (by simp) hbeq
        | tail _ h => exact h
      exact ih hmx

/-- C8: in the multi-model backtest comparison, the slot recorded for each
requested model is that model's own independently computed result — it does
not depend on which other models were requested or on their failures; the
missing-keras sequence-model slot carries its own failure record, distinct
from the training-failure record, and every other model's slot is exactly its
`_run_backtest` value. -/
theorem c8_partial_failure_isolation (env : Env) (models : List String)
    (days : Nat) (period : String) (m : String) (hm : m ∈ models) :
    (compareModelBacktest env models days period).lookup m =
      some (backtestSlot env m days period) ∧
    (env.kerasAvailable = false →
      backtestSlot env "lstm" days period =
        BTResult.failure "LSTM 需要安裝 TensorFlow/Keras") ∧
    (m ≠ "lstm" →
      backtestSlot env m days period = runBacktest env m days period) ∧
    BTResult.failure "LSTM 需要安裝 TensorFlow/Keras" ≠
      BTResult.failure "模型訓練失敗" := by
  refine ⟨compareModelBacktest_lookup env models days period m hm, ?_, ?_, by simp⟩
  · intro hk
    rw [backtestSlot, hk]
    rfl
  · intro hne
    rw [backtestSlot, if_neg ?_]
    simp [hne]

/-- C8 witness: with keras unavailable the lstm slot of a three-model
comparison is the distinct capability failure, and the linear slot is exactly
the linear model's own backtest result. -/
theorem c8_witness :
    ("lstm" ∈ ["linear", "random_forest", "lstm"] ∧
      (compareModelBacktest
        { fetch := fun _ => []
          kerasAvailable := false
          predictNextDays := fun _ _ _ => [] }
        ["linear", "random_forest", "lstm"] 30 "1y").lookup "lstm" =
        some (BTResult.failure "LSTM 需要安裝 TensorFlow/Keras")) ∧
    (compareModelBacktest
        { fetch := fun _ => []
          kerasAvailable := false
          predictNextDays := fun _ _ _ => [] }
        ["linear", "random_forest", "lstm"] 30 "1y").lookup "linear" =
      some (runBacktest
        { fetch := fun _ => []
          kerasAvailable := false
          predictNextDays := fun _ _ _ => [] } "linear" 30 "1y") := by
  have hl := c8_partial_failure_isolation
    { fetch := fun _ => [], kerasAvailable := false, predictNextDays := fun _ _ _ => [] }
    ["linear", "random_forest", "lstm"] 30 "1y" "lstm" (by simp)
  have hlin := c8_partial_failure_isolation
    { fetch := fun _ => [], kerasAvailable := false, predictNextDays := fun _ _ _ => [] }
    ["linear", "random_forest", "lstm"] 30 "1y" "linear" (by simp)
  refine ⟨⟨by simp, ?_⟩, ?_⟩
  · rw [hl.1, hl.2.1 rfl]
  · rw [hlin.1, hlin.2.2.1 (by simp)]

/-! ## The walk-forward leakage of `_run_backtest` (claim C1)

A concrete provider: 90 trading days whose closes are 0, 1, ..., 89.  The
extended fetch (`periodMap "1y" = "2y"`) returns all 90 rows; the predictor's
own re-fetch of its one-year training period returns the most recent 79 rows,
exactly as a live provider returns the most recent window of a shorter
period.  With a 30-day backtest horizon the validation window is the last 30
rows (closes 60..89). -/

def c1Rows : List OHLCV :=
  (List.range 90).map (fun i =>
    { Open := (i : ℚ), High := (i : ℚ) + 1, Low := (i : ℚ), Close := (i : ℚ),
      Volume := 1 })

def c1Env : Env :=
  { fetch := fun p =>
      if p == "2y" then c1Rows else if p == "1y" then c1Rows.drop 11 else []
    kerasAvailable := false
    predictNextDays := fun _ _ n =>
      (List.range n).map (fun _ =>
        { date := "", predictedPrice := 0, confidence := 0 }) }

/-- The fitted target vector of a backtest result (empty on failure). -/
def fittedTargetsOf : BTResult → List ℚ
  | BTResult.success p => p.fittedTargets
  | BTResult.failure _ => []

set_option maxRecDepth 10000 in
/-- C1, evaluated at the failing input: the backtest run succeeds, yet every
close-price target the model was fitted on comes from the trailing 30-day
validation window of the extended fetch (closes 70..89 ⊆ 60..89) and none
comes from the 60-row training slice — because `train()` re-fetches the
training period and overwrites the manually assigned `last_df`, the very
thing the router's comment says it avoids.  This refutes the claim that the
model is trained on the training slice only with no validation row
influencing the fit. -/
theorem c1_backtest_leakage_eval :
    fittedTargetsOf (runBacktest c1Env "linear" 30 "1y") =
      (List.range 20).map (fun i => ((i + 70 : ℕ) : ℚ)) ∧
    fittedTargetsOf (runBacktest c1Env "linear" 30 "1y") ≠ [] ∧
    (fittedTargetsOf (runBacktest c1Env "linear" 30 "1y")).all
      (fun q =>
        (((c1Env.fetch (periodMap "1y")).drop
            ((c1Env.fetch (periodMap "1y")).length - 30)).map (·.Close)).contains q)
      = true ∧
    (fittedTargetsOf (runBacktest c1Env "linear" 30 "1y")).all
      (fun q =>
        !((((c1Env.fetch (periodMap "1y")).take
            ((c1Env.fetch (periodMap "1y")).length - 30)).map (·.Close)).contains q))
      = true := by
  refine ⟨by decide, by decide, by decide, by decide⟩
